import Mathlib

/-!
Shallow embedding of `homework.py` (Klyucherov/homework_bot).

The program is a single-file polling bot: `main` checks environment
settings (`check_tokens`), then loops forever: fetch (`get_api_answer`),
validate (`check_response`), select the first homework, format
(`parse_status`), notify (`send_message`) with dedup against the last
sent status message, update the timestamp from the response, and on any
exception build an error message and notify with dedup against the last
sent error message.

Python values are embedded as `PyVal` (JSON null and Python `None`
coincide, since `json` decodes null to `None`).  External effects — the
HTTP request issued by `requests.get` and the Telegram send issued by
`bot.send_message` — are oracles supplied per cycle: the HTTP oracle maps
the `from_date` parameter to a transport outcome, and the send oracle
maps the message text to `none` (success) or `some err` (a
`TelegramError` with text `err`).  Logging calls are not modelled except
where a claim mentions a specific log (the end-of-cycle success log is
tracked as `cleanLog`).  `time.sleep(RETRY_TIME)` has no observable
effect on the state and is not modelled.  The module `constants.py` is
not part of the sources; its values (`PRACTICUM_TOKEN`, `TELEGRAM_TOKEN`,
`TELEGRAM_CHAT_ID`, `ENDPOINT`, `HEADERS`, `HOMEWORK_STATUSES`) are
carried in a `Config` record.  `HEADERS` is only ever passed to
`requests.get`, which the HTTP oracle abstracts, so it plays no role
beyond being a field.
-/

namespace HomeworkBot

/-- Embedded Python/JSON values.  `PyVal.none` is Python `None` (also the
decoding of JSON null).  Dicts are association lists with string keys,
looked up first-match; floats never occur in the data of this program. -/
inductive PyVal where
  | none : PyVal
  | bool : Bool → PyVal
  | int : Int → PyVal
  | str : String → PyVal
  | list : List PyVal → PyVal
  | dict : List (String × PyVal) → PyVal
deriving Repr

/-- First-match lookup in an embedded dict body (Python `d[k]` / `d.get(k)`). -/
def lookupKey : List (String × PyVal) → String → Option PyVal
  | [], _ => Option.none
  | (k, v) :: rest, key => if k = key then some v else lookupKey rest key

/-- Python `k in d` for an embedded dict body. -/
def hasKey (kvs : List (String × PyVal)) (key : String) : Bool :=
  (lookupKey kvs key).isSome

/-- First-match lookup in a string-to-string table (`HOMEWORK_STATUSES`). -/
def lookupStr : List (String × String) → String → Option String
  | [], _ => Option.none
  | (k, v) :: rest, key => if k = key then some v else lookupStr rest key

/-- Python truthiness (`bool(v)`), as used by `or` and by `all`. -/
def pyTruthy : PyVal → Bool
  | .none => false
  | .bool b => b
  | .int n => n != 0
  | .str s => s != ""
  | .list xs => !xs.isEmpty
  | .dict kvs => !kvs.isEmpty

/-- Python `str(v)` as used in f-strings.  The program only ever
interpolates strings (homework names, the endpoint) and exceptions;
container values never reach an f-string on a validated path, so their
rendering is a placeholder rather than a full `repr`. -/
def pyStr : PyVal → String
  | .none => "None"
  | .bool true => "True"
  | .bool false => "False"
  | .int n => toString n
  | .str s => s
  | .list _ => "<list>"
  | .dict _ => "<dict>"

/-- The exceptions the program can raise.  Every constructor is a
subclass of `Exception` in Python, hence caught by the
`except Exception` handler of the loop.  `emptyResponse`, `getApiError`,
`incorrectApiAnswer`, `noHomeworkInfo`, `sendMessageFailure` and
`wrongGetApiStatus` come from `exceptions.py`; `typeError`, `keyError`
and `attributeError` are the built-ins raised by `check_response`,
`parse_status` and attribute access on non-dicts. -/
inductive PyError where
  | emptyResponse : String → PyError
  | getApiError : String → PyError
  | incorrectApiAnswer : String → PyError
  | noHomeworkInfo : String → PyError
  | sendMessageFailure : String → PyError
  | wrongGetApiStatus : String → PyError
  | typeError : String → PyError
  | keyError : String → PyError
  | attributeError : String → PyError
deriving Repr, DecidableEq

/-- Python `str(error)`: the message for ordinary exceptions, but
`KeyError` reprs its argument, so `str(KeyError(m))` wraps `m` in single
quotes. -/
def PyError.text : PyError → String
  | .emptyResponse m => m
  | .getApiError m => m
  | .incorrectApiAnswer m => m
  | .noHomeworkInfo m => m
  | .sendMessageFailure m => m
  | .wrongGetApiStatus m => m
  | .typeError m => m
  | .keyError m => "\x27" ++ m ++ "\x27"
  | .attributeError m => m

/-- The settings imported from `constants.py` (not among the sources;
the fields mirror the import list of `homework.py`).  Tokens and chat id
are arbitrary Python values since `check_tokens` tests their truthiness.
`retry_time` and `headers` are carried for completeness: the sleep has no
observable effect and the headers are absorbed by the HTTP oracle. -/
structure Config where
  practicum_token : PyVal
  telegram_token : PyVal
  telegram_chat_id : PyVal
  endpoint : PyVal
  headers : PyVal
  homework_statuses : List (String × String)
  retry_time : Nat

/-- Outcome of one `requests.get` call, as seen by `get_api_answer`:
either the call itself raised (transport error with text `msg`), or a
response arrived with a status code and a body whose JSON decoding
either succeeded (`some v`) or raised `JSONDecodeError` (`none`). -/
inductive HttpResponse where
  | transportError : String → HttpResponse
  | response : Nat → Option PyVal → HttpResponse
deriving Repr

/-- Message strings of `homework.py`, verbatim. -/
def emptyResponseMsg : String := "Нет данных в ответе сервиса API."

def wrongTypeMsg : String := "Получен некорректный тип данных от сервиса API."

def incorrectAnswerMsg : String := "Получен некорректный ответ от сервиса API."

def noHomeworksListMsg : String := "В ответе сервиса API нет списка домашних работ."

def noHomeworkNameMsg : String := "Не найдено имя домашней работы в ответе API."

def noStatusMsg : String := "Не найден статус домашней работы в ответе API."

def unknownStatusMsg : String := "Недокументированный статус домашней работы в ответе API."

def noHomeworkInfoMsg : String := "Не найдено информации о домашней работе."

def exitMsg : String := "Работа программы завершена."

def cleanRunMsg : String := "Программа отработала без ошибок."

/-- Message template of line 37: the prefix "Сбой при отправке сообщения: " followed by the text of the caught TelegramError. -/
def sendFailMsg (err : String) : String :=
  "Сбой при отправке сообщения: " ++ err

/-- Message template of line 55: the prefix "Сбой в работе API сервиса: " followed by the text of the caught exception. -/
def apiFailMsg (err : String) : String :=
  "Сбой в работе API сервиса: " ++ err

/-- Message template of line 50, interpolating the endpoint.  The second
f-string with the status code (line 51) is a bare expression statement,
so the message really ends at "равен". -/
def wrongStatusMessage (endpoint : PyVal) : String :=
  "Статус код ответа на запрос к \x22" ++ pyStr endpoint ++ "\x22 равен"

/-- Message template of line 139: the prefix "Сбой в работе программы: "
followed by the text of the caught exception — the cycle-level error
summary built in the `except` block of `main`. -/
def progFailMsg (e : PyError) : String :=
  "Сбой в работе программы: " ++ e.text

/-- Embeds `send_message(bot, message)`: forwards to the transport; on
`TelegramError` raises `SendMessageFailure` with the failure text.  The
oracle `send` returns `none` on success and `some err` when the
transport raises a `TelegramError` whose text is `err`. -/
def send_message (send : String → Option String) (message : String) :
    Except PyError Unit :=
  match send message with
  | Option.none => Except.ok ()
  | some err => Except.error (PyError.sendMessageFailure (sendFailMsg err))

/-- Embeds line 43, `timestamp = current_timestamp or int(time.time())` —
Python `or` takes the left operand when truthy, else the right. -/
def fromDateParam (now : Int) (current_timestamp : PyVal) : PyVal :=
  if pyTruthy current_timestamp then current_timestamp else PyVal.int now

/-- Processing of the HTTP outcome inside `get_api_answer`: a raise from
`requests.get`, and the `WrongGetApiStatus` raised on a non-200 code,
are both caught by `except Exception` and re-raised as `GetApiError`
wrapping the exception text.  On a 200 response the body is decoded;
`JSONDecodeError` is logged and swallowed, so the function falls through
and returns Python `None`. -/
def apiAnswerOf (endpoint : PyVal) : HttpResponse → Except PyError PyVal
  | .transportError err => Except.error (PyError.getApiError (apiFailMsg err))
  | .response code body =>
    if code = 200 then
      match body with
      | some v => Except.ok v
      | Option.none => Except.ok PyVal.none
    else
      Except.error
        (PyError.getApiError (apiFailMsg (wrongStatusMessage endpoint)))

/-- Embeds `get_api_answer(current_timestamp)`: computes the `from_date`
parameter, issues the GET request at it, and processes the outcome. -/
def get_api_answer (cfg : Config) (http : PyVal → HttpResponse) (now : Int)
    (current_timestamp : PyVal) : Except PyError PyVal :=
  apiAnswerOf cfg.endpoint (http (fromDateParam now current_timestamp))

/-- Embeds `check_response(response)`: `None` → `EmptyResponse`; non-dict →
`TypeError`; missing `homeworks` or `current_date` → `IncorrectApiAnswer`;
non-list `homeworks` → `TypeError`; otherwise returns the list. -/
def check_response (response : PyVal) : Except PyError (List PyVal) :=
  match response with
  | .none => Except.error (PyError.emptyResponse emptyResponseMsg)
  | .dict kvs =>
    if hasKey kvs "homeworks" = false ∨ hasKey kvs "current_date" = false then
      Except.error (PyError.incorrectApiAnswer incorrectAnswerMsg)
    else
      match lookupKey kvs "homeworks" with
      | some (.list hws) => Except.ok hws
      | _ => Except.error (PyError.typeError noHomeworksListMsg)
  | _ => Except.error (PyError.typeError wrongTypeMsg)

/-- Embeds `HOMEWORK_STATUSES.get(homework_status)`: keys of the catalog
are strings; a non-string hashable key simply misses, an unhashable key
(list or dict) raises `TypeError` exactly as `dict.get` does in Python. -/
def catalogGet (catalog : List (String × String)) :
    PyVal → Except PyError (Option String)
  | .str s => Except.ok (lookupStr catalog s)
  | .list _ => Except.error (PyError.typeError "unhashable type: \x27list\x27")
  | .dict _ => Except.error (PyError.typeError "unhashable type: \x27dict\x27")
  | _ => Except.ok Option.none

/-- The formatted sentence returned by `parse_status` (line 100): the
prefix, the homework name in double quotes, a period and space, then
the verdict. -/
def statusTemplate (homework_name : PyVal) (verdict : String) : String :=
  "Изменился статус проверки работы \x22" ++ pyStr homework_name ++
    "\x22. " ++ verdict

/-- Embeds `parse_status(homework)`: `.get` both fields, raise `KeyError` when
either key is absent, look the status up in `HOMEWORK_STATUSES`, raise
`KeyError` when the verdict is `None`, else return the formatted
sentence.  Calling `.get` on a non-dict raises `AttributeError`. -/
def parse_status (catalog : List (String × String)) (homework : PyVal) :
    Except PyError String :=
  match homework with
  | .dict kvs =>
    let homework_name := (lookupKey kvs "homework_name").getD PyVal.none
    let homework_status := (lookupKey kvs "status").getD PyVal.none
    if hasKey kvs "homework_name" = false then
      Except.error (PyError.keyError noHomeworkNameMsg)
    else if hasKey kvs "status" = false then
      Except.error (PyError.keyError noStatusMsg)
    else
      match catalogGet catalog homework_status with
      | Except.error e => Except.error e
      | Except.ok Option.none => Except.error (PyError.keyError unknownStatusMsg)
      | Except.ok (some verdict) => Except.ok (statusTemplate homework_name verdict)
  | _ =>
    Except.error
      (PyError.attributeError "object has no attribute \x27get\x27")

/-- Embeds `check_tokens()`: `all([PRACTICUM_TOKEN, TELEGRAM_TOKEN,
TELEGRAM_CHAT_ID])` — truthiness of exactly these three settings;
`ENDPOINT` and `HEADERS` are not inspected. -/
def check_tokens (cfg : Config) : Bool :=
  [cfg.practicum_token, cfg.telegram_token, cfg.telegram_chat_id].all pyTruthy

/-- The loop-local variables of `main`: `current_timestamp` (an
arbitrary Python value after the first update, since
`response.get` of `current_date` is not type-checked), `last_message`
(last successfully sent status message) and `last_error` (last
successfully sent error message); the latter two start as `None`. -/
structure PollState where
  current_timestamp : PyVal
  last_message : Option String
  last_error : Option String
deriving Repr

/-- The external world during one cycle: the HTTP oracle (indexed by the
`from_date` parameter actually sent), the Telegram send oracle, and the
value `int(time.time())` would return during this cycle. -/
structure CycleEnv where
  http : PyVal → HttpResponse
  send : String → Option String
  now : Int

/-- Python dict `.get` on the value returned by `get_api_answer` (used
at line 137 with key `current_date`); only reached after
`check_response` has verified the response is a dict with that key. -/
def responseGet (response : PyVal) (key : String) : PyVal :=
  match response with
  | .dict kvs => (lookupKey kvs key).getD PyVal.none
  | _ => PyVal.none

/-- The fetch-validate-select-format prefix of a cycle (lines 122-130 of
`homework.py`, plus `parse_status`): returns the response and the
formatted status message, or the first exception raised.  The empty
homework list raises `NoHomeworkInfo` (after an info log). -/
def cyclePrepare (cfg : Config) (http : PyVal → HttpResponse) (now : Int)
    (st : PollState) : Except PyError (PyVal × String) :=
  match get_api_answer cfg http now st.current_timestamp with
  | Except.error e => Except.error e
  | Except.ok response =>
    match check_response response with
    | Except.error e => Except.error e
    | Except.ok [] => Except.error (PyError.noHomeworkInfo noHomeworkInfoMsg)
    | Except.ok (homework :: _) =>
      match parse_status cfg.homework_statuses homework with
      | Except.error e => Except.error e
      | Except.ok status_str => Except.ok (response, status_str)

/-- Observable outcome of one iteration of the `while True` body.
`statusNotifications` and `errorNotifications` list the messages for
which `send_message` was invoked on the status path and on the error
path (each can hold at most one element per cycle).  `tryError` is the
exception caught by `except Exception`, if any; `crashed` is an
exception that escaped the handler (raised by the error-path
`send_message`), which terminates the loop.  `cleanLog` records whether
the `else` branch logged `Программа отработала без ошибок`. -/
structure CycleResult where
  state : PollState
  tryError : Option PyError
  crashed : Option PyError
  statusNotifications : List String
  errorNotifications : List String
  cleanLog : Bool
deriving Repr

/-- The `except Exception` handler (lines 138-143): build the summary
message, log it, and if it differs from `last_error`, send it and record
it.  A raise from this `send_message` is not caught: the cycle ends with
`crashed` set and the loop terminates. -/
def handleError (env : CycleEnv) (st : PollState) (e : PyError)
    (attempts : List String) : CycleResult :=
  if some (progFailMsg e) ≠ st.last_error then
    match send_message env.send (progFailMsg e) with
    | Except.ok _ =>
      { state := { st with last_error := some (progFailMsg e) }
        tryError := some e
        crashed := Option.none
        statusNotifications := attempts
        errorNotifications := [progFailMsg e]
        cleanLog := false }
    | Except.error e2 =>
      { state := st
        tryError := some e
        crashed := some e2
        statusNotifications := attempts
        errorNotifications := [progFailMsg e]
        cleanLog := false }
  else
    { state := st
      tryError := some e
      crashed := Option.none
      statusNotifications := attempts
      errorNotifications := []
      cleanLog := false }

/-- One iteration of the `while True` body (lines 121-148).  On a
successful prepare: if the status message differs from `last_message`,
send it and — only after the send returns — record it; otherwise log at
debug that nothing changed; in either surviving case update
`current_timestamp` from the `current_date` field of the response as the last
action of the `try` block.  Any exception goes to `handleError`. -/
def runCycle (cfg : Config) (env : CycleEnv) (st : PollState) : CycleResult :=
  match cyclePrepare cfg env.http env.now st with
  | Except.ok (response, status_str) =>
    if some status_str ≠ st.last_message then
      match send_message env.send status_str with
      | Except.ok _ =>
        { state :=
            { current_timestamp := responseGet response "current_date"
              last_message := some status_str
              last_error := st.last_error }
          tryError := Option.none
          crashed := Option.none
          statusNotifications := [status_str]
          errorNotifications := []
          cleanLog := true }
      | Except.error e => handleError env st e [status_str]
    else
      { state := { st with current_timestamp := responseGet response "current_date" }
        tryError := Option.none
        crashed := Option.none
        statusNotifications := []
        errorNotifications := []
        cleanLog := true }
  | Except.error e => handleError env st e []

/-- Result of running `main`: the startup exit (`sys.exit` after the
failed credential check), or the loop state after consuming the supplied
cycle environments, or a crash that escaped a cycle. -/
inductive MainResult where
  | startupExit : String → MainResult
  | running : PollState → MainResult
  | crashed : PyError → PollState → MainResult
deriving Repr

/-- Recogniser for `MainResult.running`. -/
def MainResult.isRunning : MainResult → Bool
  | .running _ => true
  | _ => false

/-- Recogniser for `MainResult.crashed`. -/
def MainResult.isCrashed : MainResult → Bool
  | .crashed _ _ => true
  | _ => false

/-- Recogniser for `MainResult.startupExit`. -/
def MainResult.isStartupExit : MainResult → Bool
  | .startupExit _ => true
  | _ => false

/-- The `while True` loop, run for one environment per iteration; stops
early only when a cycle crashes (its exception propagates out of
`main`). -/
def runLoop (cfg : Config) : List CycleEnv → PollState → MainResult
  | [], st => MainResult.running st
  | env :: rest, st =>
    let r := runCycle cfg env st
    match r.crashed with
    | Option.none => runLoop cfg rest r.state
    | some e => MainResult.crashed e r.state

/-- Embeds `main` (lines 111-148): if `check_tokens()` fails, log critical and
`sys.exit` before any network call; otherwise initialise the state with
`current_timestamp = int(time.time())` and run the loop. -/
def mainRun (cfg : Config) (now : Int) (envs : List CycleEnv) : MainResult :=
  if check_tokens cfg = false then
    MainResult.startupExit exitMsg
  else
    runLoop cfg envs
      { current_timestamp := PyVal.int now
        last_message := Option.none
        last_error := Option.none }

/-! ### Concrete fixtures used by witnesses and counterexamples -/

/-- A status catalog with one known status, standing in for
`HOMEWORK_STATUSES`. -/
def goodStatuses : List (String × String) := [("approved", "Работа принята.")]

/-- A configuration with all three checked settings truthy. -/
def cfgTest : Config :=
  { practicum_token := PyVal.str "ptoken"
    telegram_token := PyVal.str "ttoken"
    telegram_chat_id := PyVal.int 42
    endpoint := PyVal.str "https://practicum.yandex.ru/api/user_api/homework_statuses/"
    headers := PyVal.dict []
    homework_statuses := goodStatuses
    retry_time := 600 }

/-- Initial loop state with timestamp 10 and nothing sent yet. -/
def stTest : PollState :=
  { current_timestamp := PyVal.int 10
    last_message := Option.none
    last_error := Option.none }

/-- A well-formed homework record. -/
def hwRecord : PyVal :=
  PyVal.dict [("homework_name", PyVal.str "proj1"), ("status", PyVal.str "approved")]

/-- A well-formed API response holding `hwRecord`. -/
def goodResponse : PyVal :=
  PyVal.dict [("homeworks", PyVal.list [hwRecord]), ("current_date", PyVal.int 1000)]

/-- The status message the loop formats for `hwRecord` under
`goodStatuses`. -/
def statusMsgTest : String := statusTemplate (PyVal.str "proj1") "Работа принята."

/-- HTTP oracle that always answers 200 with `goodResponse`. -/
def httpGood : PyVal → HttpResponse :=
  fun _ => HttpResponse.response 200 (some goodResponse)

/-- A healthy cycle: good response, every send succeeds. -/
def envGood : CycleEnv :=
  { http := httpGood, send := fun _ => Option.none, now := 50 }

/-- A cycle whose Telegram transport rejects exactly the status message
(and accepts everything else, in particular the error summary). -/
def envStatusSendFails : CycleEnv :=
  { http := httpGood
    send := fun m => if m = statusMsgTest then some "boom" else Option.none
    now := 50 }

/-- A valid response with an empty homework list. -/
def emptyHwResponse : PyVal :=
  PyVal.dict [("homeworks", PyVal.list []), ("current_date", PyVal.int 1000)]

/-- A cycle that fetches the empty-homework response. -/
def envEmptyHw : CycleEnv :=
  { http := fun _ => HttpResponse.response 200 (some emptyHwResponse)
    send := fun _ => Option.none
    now := 50 }

/-- A cycle where both the API call and every Telegram send fail. -/
def envCrash : CycleEnv :=
  { http := fun _ => HttpResponse.transportError "connection refused"
    send := fun _ => some "network down"
    now := 50 }

/-- A cycle where the API call fails but sends succeed. -/
def envApiDown : CycleEnv :=
  { http := fun _ => HttpResponse.transportError "connection refused"
    send := fun _ => Option.none
    now := 50 }

/-- HTTP oracle that echoes the `from_date` parameter back as the
response body, exposing which parameter was actually sent. -/
def httpEcho : PyVal → HttpResponse :=
  fun p => HttpResponse.response 200 (some p)

/-- All three token settings truthy but `ENDPOINT` missing (Python
`None`). -/
def cfgNoEndpoint : Config :=
  { practicum_token := PyVal.str "ptoken"
    telegram_token := PyVal.str "ttoken"
    telegram_chat_id := PyVal.int 42
    endpoint := PyVal.none
    headers := PyVal.none
    homework_statuses := []
    retry_time := 600 }

/-- Configuration with the API token missing. -/
def cfgNoToken : Config :=
  { practicum_token := PyVal.none
    telegram_token := PyVal.str "ttoken"
    telegram_chat_id := PyVal.int 42
    endpoint := PyVal.str "https://example.org/api"
    headers := PyVal.dict []
    homework_statuses := goodStatuses
    retry_time := 600 }

/-! ### Claim theorems -/

/-- Claim C4: every response that is a mapping but lacks the `homeworks`
key or the `current_date` key (or both) makes `check_response` raise
`IncorrectApiAnswer` (called `IncorrectShapeError` in the spec). -/
theorem check_response_missing_keys (kvs : List (String × PyVal))
    (h : hasKey kvs "homeworks" = false ∨ hasKey kvs "current_date" = false) :
    check_response (PyVal.dict kvs) =
      Except.error (PyError.incorrectApiAnswer incorrectAnswerMsg) := by
  simp only [check_response]
  rw [if_pos h]

/-- Witness for C4: the mapping with only a `foo` key (spec scenario 3)
is rejected with `IncorrectApiAnswer`. -/
theorem check_response_missing_keys_witness :
    check_response (PyVal.dict [("foo", PyVal.int 1)]) =
      Except.error (PyError.incorrectApiAnswer incorrectAnswerMsg) :=
  check_response_missing_keys [("foo", PyVal.int 1)] (by decide)

/-- Claim C5: a homework record holding a `homework_name` key and a
`status` key whose value is a catalog status makes `parse_status` return
exactly the formatted sentence — the Russian original which the spec
renders as `Changed review status of work "{homework_name}". {verdict}` —
with the catalog verdict for that status. -/
theorem parse_status_formats_known_status (catalog : List (String × String))
    (kvs : List (String × PyVal)) (nameVal : PyVal) (status verdict : String)
    (hname : lookupKey kvs "homework_name" = some nameVal)
    (hstatus : lookupKey kvs "status" = some (PyVal.str status))
    (hverdict : lookupStr catalog status = some verdict) :
    parse_status catalog (PyVal.dict kvs) =
      Except.ok ("Изменился статус проверки работы \x22" ++ pyStr nameVal ++
        "\x22. " ++ verdict) := by
  unfold parse_status
  simp [hasKey, hname, hstatus, catalogGet, hverdict, statusTemplate]

/-- Witness for C5: the record `proj1`/`approved` under `goodStatuses`
formats to the expected sentence. -/
theorem parse_status_formats_known_status_witness :
    parse_status goodStatuses
        (PyVal.dict [("homework_name", PyVal.str "proj1"),
          ("status", PyVal.str "approved")]) =
      Except.ok ("Изменился статус проверки работы \x22" ++ pyStr (PyVal.str "proj1") ++
        "\x22. " ++ "Работа принята.") :=
  parse_status_formats_known_status goodStatuses
    [("homework_name", PyVal.str "proj1"), ("status", PyVal.str "approved")]
    (PyVal.str "proj1") "approved" "Работа принята." rfl rfl rfl

/-- Claim C7: when the body of a 200 response fails to decode as JSON,
`get_api_answer` returns Python `None` instead of raising (the
`JSONDecodeError` is logged and swallowed), and `check_response` applied
to that `None` raises `EmptyResponse` (called `EmptyResponseError` in the spec). -/
theorem decode_failure_yields_empty_response (cfg : Config)
    (http : PyVal → HttpResponse) (now : Int) (ts : PyVal)
    (h : http (fromDateParam now ts) = HttpResponse.response 200 Option.none) :
    get_api_answer cfg http now ts = Except.ok PyVal.none ∧
    check_response PyVal.none =
      Except.error (PyError.emptyResponse emptyResponseMsg) := by
  constructor
  · unfold get_api_answer
    rw [h]
    rfl
  · rfl

/-- Witness for C7: a constant decode-failing oracle produces `None`
and the validator then raises `EmptyResponse`. -/
theorem decode_failure_yields_empty_response_witness :
    get_api_answer cfgTest (fun _ => HttpResponse.response 200 Option.none) 50
        (PyVal.int 10) = Except.ok PyVal.none ∧
    check_response PyVal.none =
      Except.error (PyError.emptyResponse emptyResponseMsg) :=
  decode_failure_yields_empty_response cfgTest
    (fun _ => HttpResponse.response 200 Option.none) 50 (PyVal.int 10) rfl

/-! ### Structural lemmas about one cycle (shared by several claims) -/

/-- Exhaustive description of the `except Exception` handler: the error
summary is sent and recorded when it is new and the transport accepts
it; a transport failure escapes as `SendMessageFailure` with the state
unchanged; a repeated summary is suppressed. -/
theorem handleError_spec (env : CycleEnv) (st : PollState) (e : PyError)
    (attempts : List String) :
    (env.send (progFailMsg e) = Option.none ∧
       some (progFailMsg e) ≠ st.last_error ∧
       handleError env st e attempts =
         { state := { st with last_error := some (progFailMsg e) }
           tryError := some e
           crashed := Option.none
           statusNotifications := attempts
           errorNotifications := [progFailMsg e]
           cleanLog := false }) ∨
    (∃ t, env.send (progFailMsg e) = some t ∧
       some (progFailMsg e) ≠ st.last_error ∧
       handleError env st e attempts =
         { state := st
           tryError := some e
           crashed := some (PyError.sendMessageFailure (sendFailMsg t))
           statusNotifications := attempts
           errorNotifications := [progFailMsg e]
           cleanLog := false }) ∨
    (st.last_error = some (progFailMsg e) ∧
       handleError env st e attempts =
         { state := st
           tryError := some e
           crashed := Option.none
           statusNotifications := attempts
           errorNotifications := []
           cleanLog := false }) := by
  by_cases hd : some (progFailMsg e) ≠ st.last_error
  · cases hs : env.send (progFailMsg e) with
    | none =>
      left
      refine ⟨rfl, hd, ?_⟩
      unfold handleError
      rw [if_pos hd]
      unfold send_message
      rw [hs]
    | some t =>
      right; left
      refine ⟨t, rfl, hd, ?_⟩
      unfold handleError
      rw [if_pos hd]
      unfold send_message
      rw [hs]
  · right; right
    have hd2 := hd
    push_neg at hd2
    refine ⟨hd2.symm, ?_⟩
    unfold handleError
    rw [if_neg hd]

/-- Exhaustive description of one loop iteration, by which branch of the
`try` body and of the handler was taken. -/
theorem runCycle_spec (cfg : Config) (env : CycleEnv) (st : PollState) :
    (∃ resp s, cyclePrepare cfg env.http env.now st = Except.ok (resp, s) ∧
       some s ≠ st.last_message ∧ env.send s = Option.none ∧
       runCycle cfg env st =
         { state :=
             { current_timestamp := responseGet resp "current_date"
               last_message := some s
               last_error := st.last_error }
           tryError := Option.none
           crashed := Option.none
           statusNotifications := [s]
           errorNotifications := []
           cleanLog := true }) ∨
    (∃ resp s, cyclePrepare cfg env.http env.now st = Except.ok (resp, s) ∧
       st.last_message = some s ∧
       runCycle cfg env st =
         { state := { st with current_timestamp := responseGet resp "current_date" }
           tryError := Option.none
           crashed := Option.none
           statusNotifications := []
           errorNotifications := []
           cleanLog := true }) ∨
    (∃ resp s t, cyclePrepare cfg env.http env.now st = Except.ok (resp, s) ∧
       some s ≠ st.last_message ∧ env.send s = some t ∧
       runCycle cfg env st =
         handleError env st (PyError.sendMessageFailure (sendFailMsg t)) [s]) ∨
    (∃ e, cyclePrepare cfg env.http env.now st = Except.error e ∧
       runCycle cfg env st = handleError env st e []) := by
  cases hp : cyclePrepare cfg env.http env.now st with
  | error e =>
    right; right; right
    refine ⟨e, rfl, ?_⟩
    unfold runCycle
    simp only [hp]
  | ok pr =>
    obtain ⟨resp, s⟩ := pr
    by_cases hd : some s ≠ st.last_message
    · cases hs : env.send s with
      | none =>
        left
        refine ⟨resp, s, rfl, hd, hs, ?_⟩
        unfold runCycle
        simp only [hp]
        rw [if_pos hd]
        unfold send_message
        rw [hs]
      | some t =>
        right; right; left
        refine ⟨resp, s, t, rfl, hd, hs, ?_⟩
        unfold runCycle
        simp only [hp]
        rw [if_pos hd]
        unfold send_message
        rw [hs]
    · right; left
      have hd2 := hd
      push_neg at hd2
      refine ⟨resp, s, rfl, hd2.symm, ?_⟩
      unfold runCycle
      simp only [hp]
      rw [if_neg hd]

/-- A cycle whose `try` block raised keeps `current_timestamp`,
`last_message` and `cleanLog = false`; its caught exception is recorded. -/
theorem runCycle_failed_fields (cfg : Config) (env : CycleEnv) (st : PollState)
    (e : PyError) (h : (runCycle cfg env st).tryError = some e) :
    (runCycle cfg env st).state.current_timestamp = st.current_timestamp ∧
    (runCycle cfg env st).state.last_message = st.last_message ∧
    (runCycle cfg env st).cleanLog = false := by
  rcases runCycle_spec cfg env st with
    ⟨resp, s, hp, hd, hs, hr⟩ | ⟨resp, s, hp, hd, hr⟩ |
    ⟨resp, s, t, hp, hd, hs, hr⟩ | ⟨e0, hp, hr⟩
  · rw [hr] at h; exact Option.noConfusion h
  · rw [hr] at h; exact Option.noConfusion h
  · rw [hr]
    rcases handleError_spec env st (PyError.sendMessageFailure (sendFailMsg t)) [s] with
      ⟨_, _, he⟩ | ⟨u, _, _, he⟩ | ⟨_, he⟩ <;> rw [he] <;> exact ⟨rfl, rfl, rfl⟩
  · rw [hr]
    rcases handleError_spec env st e0 [] with
      ⟨_, _, he⟩ | ⟨u, _, _, he⟩ | ⟨_, he⟩ <;> rw [he] <;> exact ⟨rfl, rfl, rfl⟩

/-- Whatever the handler did, the status-path attempts are passed
through unchanged. -/
theorem handleError_attempts (env : CycleEnv) (st : PollState) (e : PyError)
    (attempts : List String) :
    (handleError env st e attempts).statusNotifications = attempts := by
  rcases handleError_spec env st e attempts with
    ⟨_, _, he⟩ | ⟨t, _, _, he⟩ | ⟨_, he⟩ <;> rw [he]

/-- When the prepared status message is new, the cycle invokes the
notifier for it — whether or not the send then succeeds. -/
theorem runCycle_attempts_when_new (cfg : Config) (env : CycleEnv)
    (st : PollState) (resp : PyVal) (s : String)
    (hp : cyclePrepare cfg env.http env.now st = Except.ok (resp, s))
    (hd : some s ≠ st.last_message) :
    (runCycle cfg env st).statusNotifications = [s] := by
  rcases runCycle_spec cfg env st with
    ⟨r2, s2, hp2, hd2, hs2, hr⟩ | ⟨r2, s2, hp2, hd2, hr⟩ |
    ⟨r2, s2, t2, hp2, hd2, hs2, hr⟩ | ⟨e2, hp2, hr⟩
  · rw [hp] at hp2
    obtain ⟨h1, h2⟩ : resp = r2 ∧ s = s2 := by simpa using hp2
    subst h2
    rw [hr]
  · rw [hp] at hp2
    obtain ⟨h1, h2⟩ : resp = r2 ∧ s = s2 := by simpa using hp2
    subst h2
    exact absurd hd2.symm hd
  · rw [hp] at hp2
    obtain ⟨h1, h2⟩ : resp = r2 ∧ s = s2 := by simpa using hp2
    subst h2
    rw [hr, handleError_attempts]
  · rw [hp] at hp2
    exact absurd hp2 (by simp)

/-- When the prepared status message equals the last sent one, the cycle
suppresses the duplicate: no notifier invocation, bookkeeping kept. -/
theorem runCycle_suppresses_when_same (cfg : Config) (env : CycleEnv)
    (st : PollState) (resp : PyVal) (s : String)
    (hp : cyclePrepare cfg env.http env.now st = Except.ok (resp, s))
    (hd : st.last_message = some s) :
    (runCycle cfg env st).statusNotifications = [] ∧
    (runCycle cfg env st).state.last_message = some s := by
  rcases runCycle_spec cfg env st with
    ⟨r2, s2, hp2, hd2, hs2, hr⟩ | ⟨r2, s2, hp2, hd2, hr⟩ |
    ⟨r2, s2, t2, hp2, hd2, hs2, hr⟩ | ⟨e2, hp2, hr⟩
  · rw [hp] at hp2
    obtain ⟨h1, h2⟩ : resp = r2 ∧ s = s2 := by simpa using hp2
    subst h2
    exact absurd hd.symm hd2
  · rw [hp] at hp2
    obtain ⟨h1, h2⟩ : resp = r2 ∧ s = s2 := by simpa using hp2
    subst h2
    rw [hr]
    exact ⟨rfl, hd⟩
  · rw [hp] at hp2
    obtain ⟨h1, h2⟩ : resp = r2 ∧ s = s2 := by simpa using hp2
    subst h2
    exact absurd hd.symm hd2
  · rw [hp] at hp2
    exact absurd hp2 (by simp)

/-- When the cycle fails with an error whose summary equals the last
sent error message, the error notification is suppressed. -/
theorem runCycle_error_suppressed (cfg : Config) (env : CycleEnv)
    (st : PollState) (e : PyError)
    (hp : cyclePrepare cfg env.http env.now st = Except.error e)
    (hd : st.last_error = some (progFailMsg e)) :
    (runCycle cfg env st).errorNotifications = [] := by
  rcases runCycle_spec cfg env st with
    ⟨r2, s2, hp2, hd2, hs2, hr⟩ | ⟨r2, s2, hp2, hd2, hr⟩ |
    ⟨r2, s2, t2, hp2, hd2, hs2, hr⟩ | ⟨e2, hp2, hr⟩
  · rw [hp] at hp2; exact absurd hp2 (by simp)
  · rw [hp] at hp2; exact absurd hp2 (by simp)
  · rw [hp] at hp2; exact absurd hp2 (by simp)
  · rw [hp] at hp2
    have he2 : e = e2 := by simpa using hp2
    subst he2
    rw [hr]
    rcases handleError_spec env st e [] with
      ⟨_, hne, he⟩ | ⟨t, _, hne, he⟩ | ⟨_, he⟩
    · exact absurd hd.symm hne
    · exact absurd hd.symm hne
    · rw [he]

/-- Each cycle invokes the notifier at most once on the status path and
at most once on the error path. -/
theorem runCycle_at_most_one_send (cfg : Config) (env : CycleEnv)
    (st : PollState) :
    (runCycle cfg env st).statusNotifications.length ≤ 1 ∧
    (runCycle cfg env st).errorNotifications.length ≤ 1 := by
  rcases runCycle_spec cfg env st with
    ⟨r2, s2, _, _, _, hr⟩ | ⟨r2, s2, _, _, hr⟩ |
    ⟨r2, s2, t2, _, _, _, hr⟩ | ⟨e2, _, hr⟩
  · rw [hr]; exact ⟨by simp, by simp⟩
  · rw [hr]; exact ⟨by simp, by simp⟩
  · rw [hr]
    rcases handleError_spec env st (PyError.sendMessageFailure (sendFailMsg t2)) [s2] with
      ⟨_, _, he⟩ | ⟨u, _, _, he⟩ | ⟨_, he⟩ <;> rw [he] <;> exact ⟨by simp, by simp⟩
  · rw [hr]
    rcases handleError_spec env st e2 [] with
      ⟨_, _, he⟩ | ⟨u, _, _, he⟩ | ⟨_, he⟩ <;> rw [he] <;> exact ⟨by simp, by simp⟩

/-- Claim C9: in every cycle whose `try` block raised — wherever the
failure occurred: fetch, validate, select, format or notify —
`current_timestamp` is unchanged, because the update from the field
`current_date` of the response (line 137) is the last action of a successful `try`
block.  The state a failed cycle passes to the next cycle therefore
carries the same timestamp it started with. -/
theorem failed_cycle_preserves_timestamp (cfg : Config) (env : CycleEnv)
    (st : PollState) (e : PyError)
    (h : (runCycle cfg env st).tryError = some e) :
    (runCycle cfg env st).state.current_timestamp = st.current_timestamp :=
  (runCycle_failed_fields cfg env st e h).1

/-- Witness for C9: a cycle whose API call raises leaves the timestamp
at its initial value `10`. -/
theorem failed_cycle_preserves_timestamp_witness :
    (runCycle cfgTest envApiDown stTest).state.current_timestamp =
      stTest.current_timestamp :=
  failed_cycle_preserves_timestamp cfgTest envApiDown stTest
    (PyError.getApiError (apiFailMsg "connection refused")) rfl

/-- Claim C8 counterexample: in the cycle that receives a valid response
with an empty homework list, `NoHomeworkInfo` is raised and caught, and
the end-of-cycle `Программа отработала без ошибок` info log does NOT
fire (the `else` clause of `try` runs only when no exception was
raised), contradicting the claim that it fires even in such cycles. -/
theorem clean_log_empty_homeworks_counterexample :
    (runCycle cfgTest envEmptyHw stTest).tryError =
      some (PyError.noHomeworkInfo noHomeworkInfoMsg) ∧
    (runCycle cfgTest envEmptyHw stTest).cleanLog = false := by
  constructor <;> rfl

/-- Claim C8 as amended: the clean-completion info log fires exactly in
cycles where no exception reached the `except` handler; in particular a
cycle that raises `NoHomeworkInfo` for an empty homework list logs that
fact at info severity and then takes the error path, so the
clean-completion log does not fire there. -/
theorem clean_log_requires_no_exception (cfg : Config) (env : CycleEnv)
    (st : PollState) (resp : PyVal)
    (hfetch : get_api_answer cfg env.http env.now st.current_timestamp =
      Except.ok resp)
    (hempty : check_response resp = Except.ok []) :
    (runCycle cfg env st).tryError =
      some (PyError.noHomeworkInfo noHomeworkInfoMsg) ∧
    (runCycle cfg env st).cleanLog = false ∧
    (∀ (cfg2 : Config) (env2 : CycleEnv) (st2 : PollState),
      (runCycle cfg2 env2 st2).cleanLog = true ↔
        (runCycle cfg2 env2 st2).tryError = Option.none) := by
  have hprep : cyclePrepare cfg env.http env.now st =
      Except.error (PyError.noHomeworkInfo noHomeworkInfoMsg) := by
    unfold cyclePrepare
    simp only [hfetch, hempty]
  have htri : ∀ (cfg2 : Config) (env2 : CycleEnv) (st2 : PollState),
      (runCycle cfg2 env2 st2).cleanLog = true ↔
        (runCycle cfg2 env2 st2).tryError = Option.none := by
    intro cfg2 env2 st2
    rcases runCycle_spec cfg2 env2 st2 with
      ⟨resp2, s2, _, _, _, hr⟩ | ⟨resp2, s2, _, _, hr⟩ |
      ⟨resp2, s2, t2, _, _, _, hr⟩ | ⟨e2, _, hr⟩
    · rw [hr]; simp
    · rw [hr]; simp
    · rw [hr]
      rcases handleError_spec env2 st2
          (PyError.sendMessageFailure (sendFailMsg t2)) [s2] with
        ⟨_, _, he⟩ | ⟨u, _, _, he⟩ | ⟨_, he⟩ <;> rw [he] <;> simp
    · rw [hr]
      rcases handleError_spec env2 st2 e2 [] with
        ⟨_, _, he⟩ | ⟨u, _, _, he⟩ | ⟨_, he⟩ <;> rw [he] <;> simp
  rcases runCycle_spec cfg env st with
    ⟨resp2, s2, hp, _, _, hr⟩ | ⟨resp2, s2, hp, _, hr⟩ |
    ⟨resp2, s2, t2, hp, _, _, hr⟩ | ⟨e2, hp, hr⟩
  · rw [hprep] at hp; exact absurd hp (by simp)
  · rw [hprep] at hp; exact absurd hp (by simp)
  · rw [hprep] at hp; exact absurd hp (by simp)
  · rw [hprep] at hp
    have he2 : e2 = PyError.noHomeworkInfo noHomeworkInfoMsg := by
      simpa using hp.symm
    subst he2
    rw [hr]
    rcases handleError_spec env st (PyError.noHomeworkInfo noHomeworkInfoMsg) [] with
      ⟨_, _, he⟩ | ⟨u, _, _, he⟩ | ⟨_, he⟩ <;> rw [he] <;>
      exact ⟨rfl, rfl, htri⟩

/-- Witness for the amended C8 theorem at the empty-homework fixture. -/
theorem clean_log_requires_no_exception_witness :
    (runCycle cfgTest envEmptyHw stTest).tryError =
      some (PyError.noHomeworkInfo noHomeworkInfoMsg) ∧
    (runCycle cfgTest envEmptyHw stTest).cleanLog = false ∧
    (∀ (cfg2 : Config) (env2 : CycleEnv) (st2 : PollState),
      (runCycle cfg2 env2 st2).cleanLog = true ↔
        (runCycle cfg2 env2 st2).tryError = Option.none) :=
  clean_log_requires_no_exception cfgTest envEmptyHw stTest emptyHwResponse
    rfl rfl

/-- Claim C10: `last_message` and `last_error` are assigned only after
the corresponding `send_message` call returned without raising — a
changed value always comes with exactly one successful send of it this
cycle; conversely, any message whose send failed leaves the bookkeeping
of its category at the previous value, so when a later cycle prepares the
same status message it is attempted again instead of being treated as
already sent. -/
theorem dedup_values_updated_only_after_send (cfg : Config) (env : CycleEnv)
    (st : PollState) :
    ((runCycle cfg env st).state.last_message ≠ st.last_message →
      ∃ m, (runCycle cfg env st).state.last_message = some m ∧
        (runCycle cfg env st).statusNotifications = [m] ∧
        env.send m = Option.none) ∧
    ((runCycle cfg env st).state.last_error ≠ st.last_error →
      ∃ em, (runCycle cfg env st).state.last_error = some em ∧
        (runCycle cfg env st).errorNotifications = [em] ∧
        env.send em = Option.none) ∧
    (∀ m, (runCycle cfg env st).statusNotifications = [m] →
      env.send m ≠ Option.none →
      (runCycle cfg env st).state.last_message = st.last_message ∧
      ∀ (env2 : CycleEnv) (resp2 : PyVal),
        cyclePrepare cfg env2.http env2.now (runCycle cfg env st).state =
          Except.ok (resp2, m) →
        (runCycle cfg env2 (runCycle cfg env st).state).statusNotifications =
          [m]) ∧
    (∀ em, (runCycle cfg env st).errorNotifications = [em] →
      env.send em ≠ Option.none →
      (runCycle cfg env st).state.last_error = st.last_error) := by
  rcases runCycle_spec cfg env st with
    ⟨resp, s, hp, hd, hs, hr⟩ | ⟨resp, s, hp, hd, hr⟩ |
    ⟨resp, s, t, hp, hd, hs, hr⟩ | ⟨e, hp, hr⟩
  · rw [hr]
    refine ⟨?_, ?_, ?_, ?_⟩
    · intro _; exact ⟨s, rfl, rfl, hs⟩
    · intro h; exact absurd rfl h
    · intro m hm hsend
      have hms : s = m := by simpa using hm
      subst hms
      exact absurd hs hsend
    · intro em hem _
      exact absurd hem (by simp)
  · rw [hr]
    refine ⟨?_, ?_, ?_, ?_⟩
    · intro h; exact absurd rfl h
    · intro h; exact absurd rfl h
    · intro m hm _; exact absurd hm (by simp)
    · intro em hem _; exact absurd hem (by simp)
  · rw [hr]
    rcases handleError_spec env st (PyError.sendMessageFailure (sendFailMsg t)) [s] with
      ⟨hsOk, hne, he⟩ | ⟨u, hsu, hne, he⟩ | ⟨hold, he⟩ <;> rw [he]
    · refine ⟨?_, ?_, ?_, ?_⟩
      · intro h; exact absurd rfl h
      · intro _
        exact ⟨progFailMsg (PyError.sendMessageFailure (sendFailMsg t)),
          rfl, rfl, hsOk⟩
      · intro m hm hsend
        have hms : s = m := by simpa using hm
        subst hms
        refine ⟨rfl, ?_⟩
        intro env2 resp2 hp2
        exact runCycle_attempts_when_new cfg env2 _ resp2 s hp2 hd
      · intro em hem hsend
        have hme : progFailMsg (PyError.sendMessageFailure (sendFailMsg t)) = em := by
          simpa using hem
        subst hme
        exact absurd hsOk hsend
    · refine ⟨?_, ?_, ?_, ?_⟩
      · intro h; exact absurd rfl h
      · intro h; exact absurd rfl h
      · intro m hm hsend
        have hms : s = m := by simpa using hm
        subst hms
        refine ⟨rfl, ?_⟩
        intro env2 resp2 hp2
        exact runCycle_attempts_when_new cfg env2 _ resp2 s hp2 hd
      · intro em hem _; exact rfl
    · refine ⟨?_, ?_, ?_, ?_⟩
      · intro h; exact absurd rfl h
      · intro h; exact absurd rfl h
      · intro m hm hsend
        have hms : s = m := by simpa using hm
        subst hms
        refine ⟨rfl, ?_⟩
        intro env2 resp2 hp2
        exact runCycle_attempts_when_new cfg env2 _ resp2 s hp2 hd
      · intro em hem _; exact absurd hem (by simp)
  · rw [hr]
    rcases handleError_spec env st e [] with
      ⟨hsOk, hne, he⟩ | ⟨u, hsu, hne, he⟩ | ⟨hold, he⟩ <;> rw [he]
    · refine ⟨?_, ?_, ?_, ?_⟩
      · intro h; exact absurd rfl h
      · intro _; exact ⟨progFailMsg e, rfl, rfl, hsOk⟩
      · intro m hm _; exact absurd hm (by simp)
      · intro em hem hsend
        have hme : progFailMsg e = em := by simpa using hem
        subst hme
        exact absurd hsOk hsend
    · refine ⟨?_, ?_, ?_, ?_⟩
      · intro h; exact absurd rfl h
      · intro h; exact absurd rfl h
      · intro m hm _; exact absurd hm (by simp)
      · intro em hem _; exact rfl
    · refine ⟨?_, ?_, ?_, ?_⟩
      · intro h; exact absurd rfl h
      · intro h; exact absurd rfl h
      · intro m hm _; exact absurd hm (by simp)
      · intro em hem _; exact absurd hem (by simp)

/-- Witness for C10: in the cycle whose Telegram transport rejects the
status message, `last_message` keeps its previous value (`None`). -/
theorem dedup_values_updated_only_after_send_witness :
    (runCycle cfgTest envStatusSendFails stTest).state.last_message =
      stTest.last_message :=
  ((dedup_values_updated_only_after_send cfgTest envStatusSendFails stTest).2.2.1
    statusMsgTest rfl (by simp [envStatusSendFails])).1

/-- Claim C2 counterexample: two consecutive cycles both produce the
status message `statusMsgTest`; the send of it in the first cycle fails (the
error summary is still delivered, so the loop survives), and because
`last_message` was not updated the second cycle invokes the notifier for
the very same message again — two invocations across the two cycles,
refuting "at most once". -/
theorem dedup_double_invocation_counterexample :
    (runCycle cfgTest envStatusSendFails stTest).statusNotifications =
      [statusMsgTest] ∧
    (runCycle cfgTest envStatusSendFails stTest).crashed = Option.none ∧
    (runCycle cfgTest envGood
        (runCycle cfgTest envStatusSendFails stTest).state).statusNotifications =
      [statusMsgTest] := by
  refine ⟨rfl, rfl, rfl⟩

/-- Claim C2 as amended: the dedup guarantee holds for messages that
were actually recorded as sent.  If after the first cycle the status
message `m` is the last-sent status message and the second cycle
prepares the same `m`, the second cycle does not invoke the notifier for
it (and keeps `m` recorded); symmetrically for a repeated error summary.
Together with the per-cycle bound (each category sends at most once per
cycle) this gives "at most once across both cycles" whenever the first
send succeeded; when the first send failed, the message is deliberately
re-attempted (see C10), which is the case the original claim missed. -/
theorem dedup_suppresses_after_successful_send (cfg : Config)
    (env1 env2 : CycleEnv) (st : PollState) (m : String) (resp : PyVal) :
    ((runCycle cfg env1 st).state.last_message = some m →
      cyclePrepare cfg env2.http env2.now (runCycle cfg env1 st).state =
        Except.ok (resp, m) →
      (runCycle cfg env2 (runCycle cfg env1 st).state).statusNotifications =
        [] ∧
      (runCycle cfg env2
          (runCycle cfg env1 st).state).state.last_message = some m) ∧
    (∀ e : PyError,
      (runCycle cfg env1 st).state.last_error = some (progFailMsg e) →
      cyclePrepare cfg env2.http env2.now (runCycle cfg env1 st).state =
        Except.error e →
      (runCycle cfg env2 (runCycle cfg env1 st).state).errorNotifications =
        []) ∧
    (runCycle cfg env1 st).statusNotifications.length ≤ 1 ∧
    (runCycle cfg env1 st).errorNotifications.length ≤ 1 := by
  refine ⟨?_, ?_, (runCycle_at_most_one_send cfg env1 st).1,
    (runCycle_at_most_one_send cfg env1 st).2⟩
  · intro hlast hp2
    exact runCycle_suppresses_when_same cfg env2 _ resp m hp2 hlast
  · intro e hlast hp2
    exact runCycle_error_suppressed cfg env2 _ e hp2 hlast

/-- Witness for the amended C2 theorem: two healthy consecutive cycles
with the same status message — the second is suppressed. -/
theorem dedup_suppresses_after_successful_send_witness :
    (runCycle cfgTest envGood
        (runCycle cfgTest envGood stTest).state).statusNotifications = [] ∧
    (runCycle cfgTest envGood
        (runCycle cfgTest envGood stTest).state).state.last_message =
      some statusMsgTest :=
  (dedup_suppresses_after_successful_send cfgTest envGood envGood stTest
    statusMsgTest goodResponse).1 rfl rfl

/-- Claim C6 counterexample: the caller-supplied timestamp 0 (an integer
≥ 0) is falsy in Python, so `current_timestamp or int(time.time())`
discards it: with current time 555 the request is sent with
`from_date = 555`, not 0 (the echoing oracle exposes the parameter). -/
theorem from_date_zero_counterexample :
    fromDateParam 555 (PyVal.int 0) ≠ PyVal.int 0 ∧
    get_api_answer cfgTest httpEcho 555 (PyVal.int 0) =
      Except.ok (PyVal.int 555) := by
  constructor
  · intro h
    injection h with h2
    exact absurd h2 (by decide)
  · rfl

/-- Claim C6 as amended: for every positive caller-supplied timestamp
the `from_date` parameter of the GET request equals it and the response
processing depends only on the oracle answer at that parameter; a
falsy timestamp — no timestamp (`None`), but also the integer 0, since
the code uses Python `or` rather than an `is None` test — is replaced by
the current time. -/
theorem from_date_uses_positive_timestamp (now ts : Int) (h : 0 < ts)
    (cfg : Config) (http : PyVal → HttpResponse) :
    fromDateParam now (PyVal.int ts) = PyVal.int ts ∧
    get_api_answer cfg http now (PyVal.int ts) =
      apiAnswerOf cfg.endpoint (http (PyVal.int ts)) ∧
    fromDateParam now PyVal.none = PyVal.int now ∧
    fromDateParam now (PyVal.int 0) = PyVal.int now := by
  have hne : ts ≠ 0 := by omega
  have h1 : fromDateParam now (PyVal.int ts) = PyVal.int ts := by
    unfold fromDateParam
    simp [pyTruthy, hne]
  refine ⟨h1, ?_, rfl, rfl⟩
  unfold get_api_answer
  rw [h1]

/-- Witness for the amended C6 theorem at timestamp 3, current time 50. -/
theorem from_date_uses_positive_timestamp_witness :
    fromDateParam 50 (PyVal.int 3) = PyVal.int 3 ∧
    get_api_answer cfgTest httpEcho 50 (PyVal.int 3) =
      apiAnswerOf cfgTest.endpoint (httpEcho (PyVal.int 3)) ∧
    fromDateParam 50 PyVal.none = PyVal.int 50 ∧
    fromDateParam 50 (PyVal.int 0) = PyVal.int 50 :=
  from_date_uses_positive_timestamp 50 3 (by decide) cfgTest httpEcho

/-- Claim C3 counterexample: a configuration whose three token settings
are present but whose endpoint setting is absent (`None`) still passes
`check_tokens`, and `main` proceeds into the poll loop — so absence of
the fourth setting (endpoint/headers) is not fatal at startup,
contradicting "cannot proceed unless all four are non-empty". -/
theorem startup_ignores_endpoint_counterexample :
    cfgNoEndpoint.endpoint = PyVal.none ∧
    check_tokens cfgNoEndpoint = true ∧
    mainRun cfgNoEndpoint 100 [] =
      MainResult.running
        { current_timestamp := PyVal.int 100
          last_message := Option.none
          last_error := Option.none } := by
  refine ⟨rfl, rfl, rfl⟩

/-- Claim C3 as amended: the startup check inspects exactly the three
token settings (API token, bot token, chat id); if any of THOSE is
absent or empty the program logs critically and exits before entering
the loop and before any network call (the exit result is independent of
the supplied cycle environments); if all three are truthy it enters the
loop.  The endpoint/headers settings are never checked. -/
theorem startup_checks_three_tokens (cfg : Config) (now : Int)
    (envs : List CycleEnv) :
    (check_tokens cfg =
      (pyTruthy cfg.practicum_token &&
        (pyTruthy cfg.telegram_token && pyTruthy cfg.telegram_chat_id))) ∧
    (check_tokens cfg = false →
      mainRun cfg now envs = MainResult.startupExit exitMsg) ∧
    (check_tokens cfg = true →
      mainRun cfg now envs =
        runLoop cfg envs
          { current_timestamp := PyVal.int now
            last_message := Option.none
            last_error := Option.none }) := by
  refine ⟨?_, ?_, ?_⟩
  · simp [check_tokens, List.all]
  · intro h
    unfold mainRun
    rw [if_pos h]
  · intro h
    unfold mainRun
    rw [h]
    simp

/-- Witness for the amended C3 theorem: with the API token missing the
program exits at startup. -/
theorem startup_checks_three_tokens_witness :
    mainRun cfgNoToken 5 [] = MainResult.startupExit exitMsg :=
  (startup_checks_three_tokens cfgNoToken 5 []).2.1 rfl

/-- A crash that escapes a cycle is always the `SendMessageFailure`
raised by the error-path `send_message` (line 142). -/
theorem runCycle_crash_shape (cfg : Config) (env : CycleEnv) (st : PollState)
    (e : PyError) (h : (runCycle cfg env st).crashed = some e) :
    ∃ t, e = PyError.sendMessageFailure (sendFailMsg t) := by
  rcases runCycle_spec cfg env st with
    ⟨resp, s, _, _, _, hr⟩ | ⟨resp, s, _, _, hr⟩ |
    ⟨resp, s, t, _, _, _, hr⟩ | ⟨e0, _, hr⟩
  · rw [hr] at h; exact Option.noConfusion h
  · rw [hr] at h; exact Option.noConfusion h
  · rw [hr] at h
    rcases handleError_spec env st (PyError.sendMessageFailure (sendFailMsg t)) [s] with
      ⟨_, _, he⟩ | ⟨u, _, _, he⟩ | ⟨_, he⟩ <;> rw [he] at h
    · exact Option.noConfusion h
    · injection h with h2
      exact ⟨u, h2.symm⟩
    · exact Option.noConfusion h
  · rw [hr] at h
    rcases handleError_spec env st e0 [] with
      ⟨_, _, he⟩ | ⟨u, _, _, he⟩ | ⟨_, he⟩ <;> rw [he] at h
    · exact Option.noConfusion h
    · injection h with h2
      exact ⟨u, h2.symm⟩
    · exact Option.noConfusion h

/-- When the Telegram transport accepts every message, no cycle ever
crashes. -/
theorem runCycle_no_crash_when_sends_ok (cfg : Config) (env : CycleEnv)
    (st : PollState) (hsend : ∀ m, env.send m = Option.none) :
    (runCycle cfg env st).crashed = Option.none := by
  rcases runCycle_spec cfg env st with
    ⟨resp, s, _, _, _, hr⟩ | ⟨resp, s, _, _, hr⟩ |
    ⟨resp, s, t, _, _, hs, hr⟩ | ⟨e0, _, hr⟩
  · rw [hr]
  · rw [hr]
  · rw [hsend s] at hs
    exact Option.noConfusion hs
  · rw [hr]
    rcases handleError_spec env st e0 [] with
      ⟨_, _, he⟩ | ⟨u, hsu, _, he⟩ | ⟨_, he⟩
    · rw [he]
    · rw [hsend (progFailMsg e0)] at hsu
      exact Option.noConfusion hsu
    · rw [he]

/-- Unfolding equation for `runLoop` on a non-empty environment list. -/
theorem runLoop_cons (cfg : Config) (env : CycleEnv) (rest : List CycleEnv)
    (st : PollState) :
    runLoop cfg (env :: rest) st =
      match (runCycle cfg env st).crashed with
      | Option.none => runLoop cfg rest (runCycle cfg env st).state
      | some e => MainResult.crashed e (runCycle cfg env st).state := rfl

/-- The loop itself never produces a startup exit. -/
theorem runLoop_not_startupExit (cfg : Config) (envs : List CycleEnv)
    (st : PollState) :
    (runLoop cfg envs st).isStartupExit = false := by
  induction envs generalizing st with
  | nil => rfl
  | cons env rest ih =>
    rw [runLoop_cons]
    cases hc : (runCycle cfg env st).crashed with
    | none => exact ih _
    | some e => rfl

/-- Any crash the loop ends with has the shape of a failed error-path
send. -/
theorem runLoop_crash_shape (cfg : Config) (envs : List CycleEnv)
    (st st2 : PollState) (e : PyError)
    (h : runLoop cfg envs st = MainResult.crashed e st2) :
    ∃ t, e = PyError.sendMessageFailure (sendFailMsg t) := by
  induction envs generalizing st with
  | nil => exact absurd h (by simp [runLoop])
  | cons env rest ih =>
    rw [runLoop_cons] at h
    cases hc : (runCycle cfg env st).crashed with
    | none =>
      rw [hc] at h
      exact ih _ h
    | some e0 =>
      rw [hc] at h
      have h2 : MainResult.crashed e0 ((runCycle cfg env st).state) =
          MainResult.crashed e st2 := h
      injection h2 with h3 h4
      exact runCycle_crash_shape cfg env st e (h3 ▸ hc)

/-- If the transport of every supplied cycle accepts all messages, the loop
is still running after consuming them all. -/
theorem runLoop_running_when_sends_ok (cfg : Config) (envs : List CycleEnv)
    (st : PollState)
    (hsend : ∀ env ∈ envs, ∀ m, env.send m = Option.none) :
    (runLoop cfg envs st).isRunning = true := by
  induction envs generalizing st with
  | nil => rfl
  | cons env rest ih =>
    have hc : (runCycle cfg env st).crashed = Option.none :=
      runCycle_no_crash_when_sends_ok cfg env st (hsend env (by simp))
    rw [runLoop_cons, hc]
    exact ih _ (fun e2 he2 m => hsend e2 (by simp [he2]) m)

/-- Claim C1 counterexample: the `send_message` call inside the `except`
handler (line 142) is not protected by any `try`: when the API call fails and the
error-notification send also fails, `SendMessageFailure` propagates out
of the handler and the loop terminates — a fatal exit that is not the
startup credential check. -/
theorem loop_crash_on_error_send_counterexample :
    mainRun cfgTest 10 [envCrash] =
      MainResult.crashed
        (PyError.sendMessageFailure (sendFailMsg "network down"))
        { current_timestamp := PyVal.int 10
          last_message := Option.none
          last_error := Option.none } := by
  rfl

/-- Claim C1 as amended: every exception raised in the `try` steps
(fetch, validate, select, format, status notify, timestamp update) is
caught, and the startup credential check is the only other fatal exit —
but the error-path notification send is NOT protected: the only way a
cycle error terminates the loop is a `SendMessageFailure` escaping from
the `send_message` of the handler, and whenever the transport accepts every
message the loop survives all cycle errors indefinitely. -/
theorem loop_survives_only_error_send_failures (cfg : Config) (now : Int)
    (envs : List CycleEnv) :
    ((mainRun cfg now envs).isStartupExit = true ↔ check_tokens cfg = false) ∧
    (∀ e st2, mainRun cfg now envs = MainResult.crashed e st2 →
      ∃ t, e = PyError.sendMessageFailure (sendFailMsg t)) ∧
    (check_tokens cfg = true →
      (∀ env ∈ envs, ∀ m, env.send m = Option.none) →
      (mainRun cfg now envs).isRunning = true) := by
  by_cases h : check_tokens cfg = false
  · have hm : mainRun cfg now envs = MainResult.startupExit exitMsg := by
      unfold mainRun
      rw [if_pos h]
    rw [hm]
    refine ⟨⟨fun _ => h, fun _ => rfl⟩, ?_, ?_⟩
    · intro e st2 hc
      exact MainResult.noConfusion hc
    · intro h2
      rw [h] at h2
      exact Bool.noConfusion h2
  · have hT : check_tokens cfg = true := by
      cases hck : check_tokens cfg
      · exact absurd hck h
      · rfl
    have hm : mainRun cfg now envs =
        runLoop cfg envs
          { current_timestamp := PyVal.int now
            last_message := Option.none
            last_error := Option.none } := by
      unfold mainRun
      rw [hT]
      simp
    rw [hm]
    refine ⟨?_, ?_, ?_⟩
    · constructor
      · intro hex
        rw [runLoop_not_startupExit] at hex
        exact Bool.noConfusion hex
      · intro hf
        exact absurd hf h
    · intro e st2 hc
      exact runLoop_crash_shape cfg envs _ st2 e hc
    · intro _ hsend
      exact runLoop_running_when_sends_ok cfg envs _ hsend

/-- Witness for the amended C1 theorem: with a transport that accepts
every message, the loop survives a full (healthy) cycle. -/
theorem loop_survives_only_error_send_failures_witness :
    (mainRun cfgTest 10 [envGood]).isRunning = true :=
  (loop_survives_only_error_send_failures cfgTest 10 [envGood]).2.2 rfl
    (by
      intro env he m
      rw [List.mem_singleton] at he
      subst he
      rfl)

end HomeworkBot
